import Mathlib

/-!
# REE service sessions (`lib/libutee/tee_api_ree_service.c`)

A shallow embedding of the three entry points of the REE-service client
API, `TEE_OpenREESession`, `TEE_CloseREESession` and `TEE_InvokeREECommand`.

* Machine integers are `Nat`; a store into a narrower C object is written
  with an explicit `% 2 ^ 32`.
* Pointers are addresses (`Nat`), `0` is `NULL`.  The optional parameter
  array is an `Option`: `none` is a `NULL` pointer.
* The functions run over an explicit `World`: the heap of session records,
  the set of open TA sessions, the trace of calls to the TEE Internal API,
  the stores made into caller memory (the output-session slot and slot 0
  of a caller parameter array) and the diagnostics printed.
* What the primitives of the TEE Internal API answer is an input of each
  function (`OpenEnv`, `CloseEnv`, `InvokeEnv`), so
  every theorem quantifies over every behaviour of the proxy.
* Dereferencing a pointer that is not an allocated session record is
  undefined behaviour in C; the embedding returns `none` there.
-/

namespace ReeService

/-! ## Declarations of the TEE Internal API used by the file -/

/-- Modelled from the spec: the storage of a `TEE_Param`, whose declaration
(`tee_api_types.h`) is not under `src/`.  It is the union of
`struct { void *buffer; uint32_t size; } memref` and
`struct { uint32_t a; uint32_t b; } value`.  `a` and `b` are the two
32-bit words of the `value` view, which are the first eight bytes of the
object; `rest` is whatever storage of the union lies beyond them (part of
the `memref` view on a 64-bit target, nothing on a 32-bit one).  A store
to `value.a` replaces `a` and leaves `b` and `rest` as they were. -/
structure TEE_Param where
  a : Nat
  b : Nat
  rest : Nat
deriving DecidableEq, Repr

/-- A caller array `TEE_Param params[TEE_NUM_PARAMS]`, `TEE_NUM_PARAMS = 4`. -/
structure TEE_Params where
  p0 : TEE_Param
  p1 : TEE_Param
  p2 : TEE_Param
  p3 : TEE_Param
deriving DecidableEq, Repr

/-- Modelled from the spec: a `TEE_UUID`, the fixed-size binary identifier,
whose declaration (`tee_api_types.h`) is not under `src/`. -/
structure TEE_UUID where
  timeLow : Nat
  timeMid : Nat
  timeHiAndVersion : Nat
  clockSeqAndNode : List Nat
deriving DecidableEq, Repr

/-- `struct __ree_session_handle`: the 64-bit service handle and the TA
session opened on the generic PTA. -/
structure __ree_session_handle where
  handle : Nat
  session : Nat
deriving DecidableEq, Repr

/-- Modelled from the spec: `TEE_SUCCESS` of `tee_api_defines.h`,
which is not under `src/`; the value is the one the GlobalPlatform TEE
Internal API fixes. -/
def TEE_SUCCESS : Nat := 0x00000000
/-- Modelled from the spec: `TEE_ERROR_BAD_PARAMETERS` of `tee_api_defines.h`,
which is not under `src/`; the value is the one the GlobalPlatform TEE
Internal API fixes. -/
def TEE_ERROR_BAD_PARAMETERS : Nat := 0xFFFF0006
/-- Modelled from the spec: `TEE_ERROR_OUT_OF_MEMORY` of `tee_api_defines.h`,
which is not under `src/`; the value is the one the GlobalPlatform TEE
Internal API fixes. -/
def TEE_ERROR_OUT_OF_MEMORY : Nat := 0xFFFF000C
/-- Modelled from the spec: `TEE_HANDLE_NULL` of `tee_api_defines.h`,
which is not under `src/`; the value is the one the GlobalPlatform TEE
Internal API fixes. -/
def TEE_HANDLE_NULL : Nat := 0
/-- Modelled from the spec: `TEE_PARAM_TYPE_NONE` of `tee_api_defines.h`,
which is not under `src/`; the value is the one the GlobalPlatform TEE
Internal API fixes. -/
def TEE_PARAM_TYPE_NONE : Nat := 0
/-- Modelled from the spec: `TEE_PARAM_TYPE_VALUE_INPUT` of `tee_api_defines.h`,
which is not under `src/`; the value is the one the GlobalPlatform TEE
Internal API fixes. -/
def TEE_PARAM_TYPE_VALUE_INPUT : Nat := 1
/-- Modelled from the spec: `TEE_PARAM_TYPE_VALUE_OUTPUT` of `tee_api_defines.h`,
which is not under `src/`; the value is the one the GlobalPlatform TEE
Internal API fixes. -/
def TEE_PARAM_TYPE_VALUE_OUTPUT : Nat := 2
/-- Modelled from the spec: `TEE_PARAM_TYPE_MEMREF_INPUT` of `tee_api_defines.h`,
which is not under `src/`; the value is the one the GlobalPlatform TEE
Internal API fixes. -/
def TEE_PARAM_TYPE_MEMREF_INPUT : Nat := 5

/-- Modelled from the spec: the macro `TEE_PARAM_TYPES(t0,t1,t2,t3)` of
`tee_api_defines.h`, which packs four nibble-wide fields, one per slot:
`((t0) | ((t1) << 4) | ((t2) << 8) | ((t3) << 12))`. -/
def TEE_PARAM_TYPES (t0 t1 t2 t3 : Nat) : Nat :=
  t0 ||| (t1 <<< 4) ||| (t2 <<< 8) ||| (t3 <<< 12)

/-- Modelled from the spec: the macro `TEE_PARAM_TYPE_GET(t, i)` of
`tee_api_defines.h`, the nibble of slot `i`:
`((((uint32_t)t) >> ((i)*4)) & 0xF)`. -/
def TEE_PARAM_TYPE_GET (t i : Nat) : Nat :=
  ((t % 2 ^ 32) >>> (i * 4)) &&& 0xF

/-- `sizeof(TEE_UUID)`: 4 + 2 + 2 + 8 bytes. -/
def sizeof_TEE_UUID : Nat := 16

/-- What `pta_ree_service.h` and the target declare and `src/` does not
hold: the UUID of the generic PTA, the four command identifiers, and the
object representation of a zeroed `TEE_Param` whose `memref.buffer` and
`memref.size` have been set (it depends on the width of a pointer).  The
embedding takes them as a parameter. -/
structure Decls where
  PTA_GENERIC_UUID : TEE_UUID
  OPTEE_MRC_GENERIC_OPEN : Nat
  OPTEE_MRC_GENERIC_SERVICE_START : Nat
  OPTEE_MRC_GENERIC_SERVICE_STOP : Nat
  OPTEE_MRC_GENERIC_CLOSE : Nat
  memref : Nat → Nat → TEE_Param

/-! ## The world the functions run in -/

/-- One call to a primitive of the TEE Internal API, with its arguments.
A parameter array is recorded as the slots reachable from the pointer
passed: four for a caller array, one for a single local `TEE_Param`. -/
inductive Call where
  | TEE_Malloc (ret : Nat)
  | TEE_Free (buffer : Nat)
  | TEE_OpenTASession (destination : TEE_UUID) (cancellationRequestTimeout : Nat)
      (paramTypes : Nat) (params : Option (List TEE_Param)) (returnOrigin : Nat)
  | TEE_InvokeTACommand (session : Nat) (cancellationRequestTimeout : Nat)
      (commandID : Nat) (paramTypes : Nat) (params : List TEE_Param)
      (returnOrigin : Nat)
  | TEE_CloseTASession (session : Nat)
deriving DecidableEq, Repr

/-- One store into memory that belongs to the caller. -/
inductive Store where
  /-- `*ree_session = rsess`: the address of the slot and the pointer stored -/
  | ree_session (slot : Nat) (rsess : Nat)
  /-- `params[0].value.a = v` in the caller's parameter array: the 32-bit
  value stored -/
  | params0_value_a (v : Nat)
deriving DecidableEq, Repr

/-- The state the three functions act on. -/
structure World where
  /-- allocated session records, by address -/
  heap : List (Nat × __ree_session_handle)
  /-- TA sessions currently open -/
  conns : List Nat
  /-- calls made to the TEE Internal API, oldest first -/
  trace : List Call
  /-- stores made into caller memory, oldest first -/
  stores : List Store
  /-- diagnostics printed by `MSG` and `DMSG`, oldest first -/
  log : List String
deriving DecidableEq, Repr

/-- Read the session record at address `p`; `none` when none is allocated there. -/
def World.load (w : World) (p : Nat) : Option __ree_session_handle :=
  (w.heap.find? (fun e => e.1 = p)).map (fun e => e.2)

/-- Replace the first record at address `p`. -/
def heapStore : List (Nat × __ree_session_handle) → Nat → __ree_session_handle → List (Nat × __ree_session_handle)
  | [], _, _ => []
  | e :: h, p, r => if e.1 = p then (p, r) :: h else e :: heapStore h p r

/-- Remove the first record at address `p`. -/
def heapFree : List (Nat × __ree_session_handle) → Nat → List (Nat × __ree_session_handle)
  | [], _ => []
  | e :: h, p => if e.1 = p then h else e :: heapFree h p

/-- Update the session record at address `p`; `none` when none is allocated there. -/
def World.update (w : World) (p : Nat) (f : __ree_session_handle → __ree_session_handle) : Option World :=
  match w.load p with
  | none => none
  | some r => some { w with heap := heapStore w.heap p (f r) }

/-- Append a call to the trace. -/
def World.call (w : World) (c : Call) : World :=
  { w with trace := w.trace ++ [c] }

/-- `MSG(...)` / `DMSG(...)`: print a diagnostic. -/
def World.msg (w : World) (s : String) : World :=
  { w with log := w.log ++ [s] }

/-- Modelled from the spec: the allocator, which is not under `src/`.
`TEE_Malloc(size, TEE_MALLOC_FILL_ZERO)` answering `ret`: on a non-null
answer a zero-initialised record is allocated at that address. -/
def TEE_Malloc (ret : Nat) (w : World) : World :=
  let w := w.call (Call.TEE_Malloc ret)
  if ret = 0 then w else { w with heap := (ret, { handle := 0, session := 0 }) :: w.heap }

/-- Modelled from the spec: the allocator, which is not under `src/`.
`TEE_Free(buffer)` releases the record at `buffer`. -/
def TEE_Free (w : World) (buffer : Nat) : World :=
  let w := w.call (Call.TEE_Free buffer)
  { w with heap := heapFree w.heap buffer }

/-- Modelled from the spec: the close primitive of the inter-task session
layer, which is not under `src/`.  `TEE_CloseTASession(session)` closes the
session; closing `TEE_HANDLE_NULL` does nothing. -/
def TEE_CloseTASession (w : World) (session : Nat) : World :=
  let w := w.call (Call.TEE_CloseTASession session)
  if session = TEE_HANDLE_NULL then w else { w with conns := w.conns.erase session }

/-- Modelled from the spec: the open primitive of the inter-task session
layer, which is not under `src/`.  `TEE_OpenTASession(destination, t,
paramTypes, params, &rec->session, origin)` answering `res` and `session`:
on success the session is open and its handle is stored in the record at
`rec`; on failure no session is open and the record holds
`TEE_HANDLE_NULL`. -/
def TEE_OpenTASession (res session : Nat) (w : World) (destination : TEE_UUID)
    (t paramTypes : Nat) (params : Option (List TEE_Param)) (rec : Nat)
    (origin : Nat) : Option World :=
  let w := w.call (Call.TEE_OpenTASession destination t paramTypes params origin)
  if res = TEE_SUCCESS then
    (w.update rec (fun r => { r with session := session })).map
      (fun w => { w with conns := session :: w.conns })
  else
    w.update rec (fun r => { r with session := TEE_HANDLE_NULL })

/-- Modelled from the spec: the invoke primitive of the inter-task session
layer, which is not under `src/`.  `TEE_InvokeTACommand(session, t,
commandID, paramTypes, params, origin)` is recorded with its arguments; its
result is an input of the caller (`OpenEnv`, `CloseEnv`, `InvokeEnv`). -/
def TEE_InvokeTACommand (w : World) (session t commandID paramTypes : Nat)
    (params : List TEE_Param) (origin : Nat) : World :=
  w.call (Call.TEE_InvokeTACommand session t commandID paramTypes params origin)

/-- What the primitives answer during one `TEE_OpenREESession`. -/
structure OpenEnv where
  /-- pointer returned by `TEE_Malloc` (`0`: failure) -/
  malloc_ret : Nat
  /-- result of `TEE_OpenTASession` -/
  open_res : Nat
  /-- session handle it delivers on success -/
  open_session : Nat
  /-- result of the `OPTEE_MRC_GENERIC_OPEN` command -/
  resolve_res : Nat
  /-- content of `init_params[1]` after that command -/
  resolve_out : TEE_Param
  /-- result of the `OPTEE_MRC_GENERIC_SERVICE_START` command -/
  start_res : Nat
deriving DecidableEq, Repr

/-- What the proxy answers during one `TEE_CloseREESession`, and what the
uninitialised local `param` holds on entry. -/
structure CloseEnv where
  /-- result of the `OPTEE_MRC_GENERIC_SERVICE_STOP` command -/
  stop_res : Nat
  /-- result of the `OPTEE_MRC_GENERIC_CLOSE` command -/
  close_res : Nat
  /-- the local `param` before its first store -/
  param : TEE_Param
deriving DecidableEq, Repr

/-- What the proxy answers to the one command of a `TEE_InvokeREECommand`,
and what the uninitialised local `iparam` holds on entry. -/
structure InvokeEnv where
  /-- result of the command -/
  res : Nat
  /-- the local `iparam` before its first store -/
  iparam : TEE_Param
deriving DecidableEq, Repr

/-! ## The functions of `tee_api_ree_service.c` -/

/-- The parameter array reachable from `pparams`: the caller's four slots,
or the single local one when `params` is `NULL`. -/
def paramArray (params : Option TEE_Params) (iparam : TEE_Param) : List TEE_Param :=
  match params with
  | some ps => [ps.p0, ps.p1, ps.p2, ps.p3]
  | none => [iparam]

/-- The store `pparams->value.a = v` of a 64-bit `v` into the 32-bit
`value.a` of the first slot. -/
def setValueA (pparams : List TEE_Param) (v : Nat) : List TEE_Param :=
  match pparams with
  | [] => []
  | p :: ps => { p with a := v % 2 ^ 32 } :: ps

/-- Where the store `pparams->value.a = v` lands: in slot 0 of the caller's
array when `params` is non-null, which the caller sees after the call, and
in a local `TEE_Param` otherwise, which nobody sees. -/
def paramStore (params : Option TEE_Params) (v : Nat) : List Store :=
  match params with
  | some _ => [Store.params0_value_a (v % 2 ^ 32)]
  | none => []

/-- Record the store `pparams->value.a = v` among the stores into caller
memory. -/
def World.storeValueA (w : World) (params : Option TEE_Params) (v : Nat) : World :=
  { w with stores := w.stores ++ paramStore params v }

/-- The statement `paramTypes = (paramTypes & ~0xF) | TEE_PARAM_TYPE_VALUE_INPUT`
on a `uint32_t`: `~0xF` converts to `0xFFFFFFF0`. -/
def injectParamTypes (paramTypes : Nat) : Nat :=
  (paramTypes &&& 0xFFFFFFF0) ||| TEE_PARAM_TYPE_VALUE_INPUT

/-- The label `err:` of `TEE_OpenREESession`. -/
def TEE_OpenREESession.err (w : World) (rsess : Nat) (result : Nat) : Option (Nat × World) :=
  if rsess ≠ 0 then do
    let r ← w.load rsess
    let w := TEE_CloseTASession w r.session
    let w := TEE_Free w rsess
    some (result, w)
  else
    some (result, w)

/-- `TEE_OpenREESession(destination, cancellationRequestTimeout, paramTypes,
params, ree_session, returnOrigin)`: the result code and the world after
the call. -/
def TEE_OpenREESession (k : Decls) (env : OpenEnv) (w : World) (destination : Nat)
    (cancellationRequestTimeout paramTypes : Nat) (params : Option TEE_Params)
    (ree_session returnOrigin : Nat) : Option (Nat × World) :=
  let iparam : TEE_Param := { a := 0, b := 0, rest := 0 }
  let pta_generic := k.PTA_GENERIC_UUID
  let init_param_types := TEE_PARAM_TYPES TEE_PARAM_TYPE_MEMREF_INPUT
    TEE_PARAM_TYPE_VALUE_OUTPUT TEE_PARAM_TYPE_NONE TEE_PARAM_TYPE_NONE
  if destination = 0 ∨ ree_session = 0 ∨ returnOrigin = 0 then
    some (TEE_ERROR_BAD_PARAMETERS, w)
  else
    let rsess := env.malloc_ret
    let w := TEE_Malloc env.malloc_ret w
    if rsess = 0 then
      some (TEE_ERROR_OUT_OF_MEMORY, w)
    else do
      -- Open a session on the custom PTA
      let w ← TEE_OpenTASession env.open_res env.open_session w pta_generic 0 0 none rsess 0
      let result := env.open_res
      if result ≠ TEE_SUCCESS then
        TEE_OpenREESession.err (w.msg "Failed to open session on REE\n") rsess result
      else do
        -- Construct the init parameters
        let zero : TEE_Param := { a := 0, b := 0, rest := 0 }
        let init_params := [k.memref destination sizeof_TEE_UUID, zero, zero, zero]
        let r ← w.load rsess
        let w := TEE_InvokeTACommand w r.session 0 k.OPTEE_MRC_GENERIC_OPEN
          init_param_types init_params returnOrigin
        let result := env.resolve_res
        if result ≠ TEE_SUCCESS then
          TEE_OpenREESession.err (w.msg "Failed to find the ree service\n") rsess result
        else do
          let w ← w.update rsess (fun r => { r with handle := env.resolve_out.a })
          -- Indicate to the ree service to do any pre setup
          let pparams := paramArray params iparam
          let r ← w.load rsess
          let pparams := setValueA pparams r.handle
          let w := w.storeValueA params r.handle
          let paramTypes := injectParamTypes paramTypes
          let w := TEE_InvokeTACommand w r.session cancellationRequestTimeout
            k.OPTEE_MRC_GENERIC_SERVICE_START paramTypes pparams returnOrigin
          let result := env.start_res
          if result ≠ TEE_SUCCESS then
            TEE_OpenREESession.err (w.msg "Failed to initialize REE service\n") rsess result
          else
            some (TEE_SUCCESS,
              { w with stores := w.stores ++ [Store.ree_session ree_session rsess] })

/-- `TEE_CloseREESession(ree_session)`: the world after the call. -/
def TEE_CloseREESession (k : Decls) (env : CloseEnv) (w : World) (ree_session : Nat) :
    Option World := do
  let paramTypes := TEE_PARAM_TYPE_VALUE_INPUT
  let r ← w.load ree_session
  let param := setValueA [env.param] r.handle
  let w := TEE_InvokeTACommand w r.session 0 k.OPTEE_MRC_GENERIC_SERVICE_STOP paramTypes
    param 0
  let result := env.stop_res
  let w := if result ≠ TEE_SUCCESS then w.msg "Failed to close the REE service\n" else w
  let r ← w.load ree_session
  let param := setValueA param r.handle
  let w := TEE_InvokeTACommand w r.session 0 k.OPTEE_MRC_GENERIC_CLOSE paramTypes
    param 0
  let result := env.close_res
  let w := if result ≠ TEE_SUCCESS then w.msg "Failed to close the session\n" else w
  let r ← w.load ree_session
  some (TEE_CloseTASession w r.session)

/-- `TEE_InvokeREECommand(ree_session, cancellationRequestTimeout, commandID,
paramTypes, params, returnOrigin)`: the result code and the world after the
call. -/
def TEE_InvokeREECommand (env : InvokeEnv) (w : World) (ree_session : Nat)
    (cancellationRequestTimeout commandID paramTypes : Nat) (params : Option TEE_Params)
    (returnOrigin : Nat) : Option (Nat × World) := do
  -- The first parameter is reserved for internal usage
  let pParam := paramArray params env.iparam
  let r ← w.load ree_session
  let pParam := setValueA pParam r.handle
  let w := w.storeValueA params r.handle
  let paramTypes := injectParamTypes paramTypes
  let w := TEE_InvokeTACommand w r.session cancellationRequestTimeout commandID paramTypes
    pParam returnOrigin
  some (env.res, w)

/-! ## Small runs -/

/-- An empty world. -/
def w0 : World := { heap := [], conns := [], trace := [], stores := [], log := [] }

/-- A world with one established session at address `16`: handle `42` on
TA session `7`. -/
def w1 : World :=
  { heap := [(16, { handle := 42, session := 7 })], conns := [7], trace := [],
    stores := [], log := [] }

/-- Declarations for a 64-bit little-endian target, with small command numbers. -/
def k0 : Decls :=
  { PTA_GENERIC_UUID := { timeLow := 1, timeMid := 2, timeHiAndVersion := 3,
                          clockSeqAndNode := [0, 0, 0, 0, 0, 0, 0, 0] },
    OPTEE_MRC_GENERIC_OPEN := 100,
    OPTEE_MRC_GENERIC_SERVICE_START := 101,
    OPTEE_MRC_GENERIC_SERVICE_STOP := 102,
    OPTEE_MRC_GENERIC_CLOSE := 103,
    memref := fun buffer size =>
      { a := buffer % 2 ^ 32, b := buffer / 2 ^ 32 % 2 ^ 32, rest := size } }

/-- The parameter array that `TEE_InvokeREECommand` hands to
`TEE_InvokeTACommand`: the array of the last call of the trace it leaves. -/
def invokeSent (env : InvokeEnv) (w : World) (ree_session : Nat)
    (cancellationRequestTimeout commandID paramTypes : Nat) (params : Option TEE_Params)
    (returnOrigin : Nat) : Option (List TEE_Param) :=
  match TEE_InvokeREECommand env w ree_session cancellationRequestTimeout commandID
      paramTypes params returnOrigin with
  | none => none
  | some o =>
    match o.2.trace.getLast? with
    | some (Call.TEE_InvokeTACommand _ _ _ _ ps _) => some ps
    | _ => none

/-- Answers of the primitives with which every step of `TEE_OpenREESession`
succeeds: record at `32`, TA session `7`, the proxy resolves to handle `42`. -/
def envOk : OpenEnv :=
  { malloc_ret := 32, open_res := 0, open_session := 7, resolve_res := 0,
    resolve_out := { a := 42, b := 0, rest := 0 }, start_res := 0 }

/-- The same answers, but the start command fails with `0xFFFF0000`. -/
def envStartFails : OpenEnv := { envOk with start_res := 0xFFFF0000 }

/-! ## Observations used in the statements -/

/-- The diagnostics of `TEE_CloseREESession`. -/
def closeLog (env : CloseEnv) : List String :=
  (if env.stop_res ≠ TEE_SUCCESS then ["Failed to close the REE service\n"] else []) ++
  (if env.close_res ≠ TEE_SUCCESS then ["Failed to close the session\n"] else [])

/-- The `TEE_OpenTASession` call of `TEE_OpenREESession`. -/
def openCall (k : Decls) : Call :=
  Call.TEE_OpenTASession k.PTA_GENERIC_UUID 0 0 none 0

/-- The `OPTEE_MRC_GENERIC_OPEN` call of `TEE_OpenREESession`. -/
def resolveCall (k : Decls) (env : OpenEnv) (destination returnOrigin : Nat) : Call :=
  Call.TEE_InvokeTACommand env.open_session 0 k.OPTEE_MRC_GENERIC_OPEN
    (TEE_PARAM_TYPES TEE_PARAM_TYPE_MEMREF_INPUT TEE_PARAM_TYPE_VALUE_OUTPUT
      TEE_PARAM_TYPE_NONE TEE_PARAM_TYPE_NONE)
    [k.memref destination sizeof_TEE_UUID, { a := 0, b := 0, rest := 0 },
      { a := 0, b := 0, rest := 0 }, { a := 0, b := 0, rest := 0 }] returnOrigin

/-- The `OPTEE_MRC_GENERIC_SERVICE_START` call of `TEE_OpenREESession`. -/
def startCall (k : Decls) (env : OpenEnv) (t paramTypes : Nat) (params : Option TEE_Params)
    (returnOrigin : Nat) : Call :=
  Call.TEE_InvokeTACommand env.open_session t k.OPTEE_MRC_GENERIC_SERVICE_START
    (injectParamTypes paramTypes)
    (setValueA (paramArray params { a := 0, b := 0, rest := 0 }) env.resolve_out.a)
    returnOrigin

/-- The open TA sessions once the session opened by this call has been
closed again on the label `err:`. -/
def closedConns (env : OpenEnv) (w : World) : List Nat :=
  if env.open_session = TEE_HANDLE_NULL then env.open_session :: w.conns else w.conns

/-- The addresses passed to `TEE_Free`, oldest first. -/
def frees : List Call → List Nat
  | [] => []
  | Call.TEE_Free p :: cs => p :: frees cs
  | _ :: cs => frees cs

/-! ## How the world primitives compose -/

@[simp] theorem load_call (w : World) (c : Call) (p : Nat) : (w.call c).load p = w.load p := rfl

@[simp] theorem load_msg (w : World) (m : String) (p : Nat) : (w.msg m).load p = w.load p := rfl

@[simp] theorem load_storeValueA (w : World) (params : Option TEE_Params) (v p : Nat) :
    (w.storeValueA params v).load p = w.load p := rfl

@[simp] theorem load_invoke (w : World) (s t c ty : Nat) (ps : List TEE_Param) (o p : Nat) :
    (TEE_InvokeTACommand w s t c ty ps o).load p = w.load p := rfl

/-- The one call of `TEE_InvokeREECommand` on an allocated record. -/
theorem invoke_run (env : InvokeEnv) (w : World) (p t c ty : Nat) (params : Option TEE_Params)
    (ro : Nat) (s : __ree_session_handle) (h : w.load p = some s) :
    TEE_InvokeREECommand env w p t c ty params ro =
      some (env.res,
        { heap := w.heap, conns := w.conns,
          trace := w.trace ++ [Call.TEE_InvokeTACommand s.session t c
            (injectParamTypes ty) (setValueA (paramArray params env.iparam) s.handle) ro],
          stores := w.stores ++ paramStore params s.handle,
          log := w.log }) := by
  simp [TEE_InvokeREECommand, h, TEE_InvokeTACommand, World.call, World.storeValueA]

/-- The run of `TEE_CloseREESession` on an allocated record. -/
theorem close_run (k : Decls) (env : CloseEnv) (w : World) (p : Nat) (s : __ree_session_handle)
    (h : w.load p = some s) :
    TEE_CloseREESession k env w p =
      some { heap := w.heap,
             conns := if s.session = TEE_HANDLE_NULL then w.conns else w.conns.erase s.session,
             trace := w.trace ++
               [Call.TEE_InvokeTACommand s.session 0 k.OPTEE_MRC_GENERIC_SERVICE_STOP
                  TEE_PARAM_TYPE_VALUE_INPUT [{ env.param with a := s.handle % 2 ^ 32 }] 0,
                Call.TEE_InvokeTACommand s.session 0 k.OPTEE_MRC_GENERIC_CLOSE
                  TEE_PARAM_TYPE_VALUE_INPUT [{ env.param with a := s.handle % 2 ^ 32 }] 0,
                Call.TEE_CloseTASession s.session],
             stores := w.stores,
             log := w.log ++ closeLog env } := by
  by_cases h1 : env.stop_res = TEE_SUCCESS <;> by_cases h2 : env.close_res = TEE_SUCCESS <;>
    by_cases h3 : s.session = TEE_HANDLE_NULL <;>
    simp [TEE_CloseREESession, h, closeLog, h1, h2, h3] <;>
    simp [TEE_InvokeTACommand, World.call, World.msg, setValueA, TEE_CloseTASession, h3]

/-- A null required pointer: nothing happens. -/
theorem open_run_null (k : Decls) (env : OpenEnv) (w : World) (d t ty : Nat)
    (params : Option TEE_Params) (out ro : Nat) (h : d = 0 ∨ out = 0 ∨ ro = 0) :
    TEE_OpenREESession k env w d t ty params out ro = some (TEE_ERROR_BAD_PARAMETERS, w) := by
  simp [TEE_OpenREESession, h]

/-- Allocation fails. -/
theorem open_run_oom (k : Decls) (env : OpenEnv) (w : World) (d t ty : Nat)
    (params : Option TEE_Params) (out ro : Nat) (hd : d ≠ 0) (ho : out ≠ 0) (hr : ro ≠ 0)
    (hm : env.malloc_ret = 0) :
    TEE_OpenREESession k env w d t ty params out ro =
      some (TEE_ERROR_OUT_OF_MEMORY, { w with trace := w.trace ++ [Call.TEE_Malloc 0] }) := by
  simp [TEE_OpenREESession, hd, ho, hr, hm, TEE_Malloc, World.call]

/-- The connection cannot be opened. -/
theorem open_run_open_fail (k : Decls) (env : OpenEnv) (w : World) (d t ty : Nat)
    (params : Option TEE_Params) (out ro : Nat) (hd : d ≠ 0) (ho : out ≠ 0) (hr : ro ≠ 0)
    (hm : env.malloc_ret ≠ 0) (h1 : env.open_res ≠ TEE_SUCCESS) :
    TEE_OpenREESession k env w d t ty params out ro =
      some (env.open_res,
        { heap := w.heap, conns := w.conns,
          trace := w.trace ++ [Call.TEE_Malloc env.malloc_ret, openCall k,
            Call.TEE_CloseTASession TEE_HANDLE_NULL, Call.TEE_Free env.malloc_ret],
          stores := w.stores,
          log := w.log ++ ["Failed to open session on REE\n"] }) := by
  simp [TEE_OpenREESession, hd, ho, hr, hm, h1, TEE_Malloc, World.call, TEE_OpenTASession,
    World.update, World.load, heapStore, TEE_OpenREESession.err, World.msg,
    TEE_CloseTASession, TEE_Free, heapFree, openCall]

/-- The resolve command fails. -/
theorem open_run_resolve_fail (k : Decls) (env : OpenEnv) (w : World) (d t ty : Nat)
    (params : Option TEE_Params) (out ro : Nat) (hd : d ≠ 0) (ho : out ≠ 0) (hr : ro ≠ 0)
    (hm : env.malloc_ret ≠ 0)
    (h1 : env.open_res = TEE_SUCCESS) (h2 : env.resolve_res ≠ TEE_SUCCESS) :
    TEE_OpenREESession k env w d t ty params out ro =
      some (env.resolve_res,
        { heap := w.heap, conns := closedConns env w,
          trace := w.trace ++ [Call.TEE_Malloc env.malloc_ret, openCall k,
            resolveCall k env d ro,
            Call.TEE_CloseTASession env.open_session, Call.TEE_Free env.malloc_ret],
          stores := w.stores,
          log := w.log ++ ["Failed to find the ree service\n"] }) := by
  by_cases hs : env.open_session = TEE_HANDLE_NULL <;>
  simp [TEE_OpenREESession, hd, ho, hr, hm, h1, h2, hs, TEE_Malloc, World.call,
    TEE_OpenTASession, TEE_InvokeTACommand, closedConns,
    World.update, World.load, heapStore, TEE_OpenREESession.err, World.msg,
    TEE_CloseTASession, TEE_Free, heapFree, openCall, resolveCall]

/-- The start command fails. -/
theorem open_run_start_fail (k : Decls) (env : OpenEnv) (w : World) (d t ty : Nat)
    (params : Option TEE_Params) (out ro : Nat) (hd : d ≠ 0) (ho : out ≠ 0) (hr : ro ≠ 0)
    (hm : env.malloc_ret ≠ 0)
    (h1 : env.open_res = TEE_SUCCESS) (h2 : env.resolve_res = TEE_SUCCESS)
    (h3 : env.start_res ≠ TEE_SUCCESS) :
    TEE_OpenREESession k env w d t ty params out ro =
      some (env.start_res,
        { heap := w.heap, conns := closedConns env w,
          trace := w.trace ++ [Call.TEE_Malloc env.malloc_ret, openCall k,
            resolveCall k env d ro, startCall k env t ty params ro,
            Call.TEE_CloseTASession env.open_session, Call.TEE_Free env.malloc_ret],
          stores := w.stores ++ paramStore params env.resolve_out.a,
          log := w.log ++ ["Failed to initialize REE service\n"] }) := by
  by_cases hs : env.open_session = TEE_HANDLE_NULL <;>
  simp [TEE_OpenREESession, hd, ho, hr, hm, h1, h2, h3, hs, TEE_Malloc, World.call,
    TEE_OpenTASession, TEE_InvokeTACommand, closedConns, World.storeValueA,
    World.update, World.load, heapStore, TEE_OpenREESession.err, World.msg,
    TEE_CloseTASession, TEE_Free, heapFree, openCall, resolveCall, startCall]

/-- Every step succeeds. -/
theorem open_run_ok (k : Decls) (env : OpenEnv) (w : World) (d t ty : Nat)
    (params : Option TEE_Params) (out ro : Nat) (hd : d ≠ 0) (ho : out ≠ 0) (hr : ro ≠ 0)
    (hm : env.malloc_ret ≠ 0)
    (h1 : env.open_res = TEE_SUCCESS) (h2 : env.resolve_res = TEE_SUCCESS)
    (h3 : env.start_res = TEE_SUCCESS) :
    TEE_OpenREESession k env w d t ty params out ro =
      some (TEE_SUCCESS,
        { heap := (env.malloc_ret,
                   { handle := env.resolve_out.a, session := env.open_session }) :: w.heap,
          conns := env.open_session :: w.conns,
          trace := w.trace ++ [Call.TEE_Malloc env.malloc_ret, openCall k,
            resolveCall k env d ro, startCall k env t ty params ro],
          stores := w.stores ++ paramStore params env.resolve_out.a ++
            [Store.ree_session out env.malloc_ret],
          log := w.log }) := by
  simp [TEE_OpenREESession, hd, ho, hr, hm, h1, h2, h3, TEE_Malloc, World.call,
    TEE_OpenTASession, TEE_InvokeTACommand, World.storeValueA,
    World.update, World.load, heapStore, openCall, resolveCall, startCall]

/-! ## The parameter-type descriptor -/

/-- Bits 4 and above of a 32-bit descriptor survive the rewriting. -/
theorem injectParamTypes_testBit (p i : Nat) (h4 : 4 ≤ i) (h32 : i < 32) :
    (injectParamTypes p).testBit i = p.testBit i := by
  unfold injectParamTypes TEE_PARAM_TYPE_VALUE_INPUT
  rw [Nat.testBit_or, Nat.testBit_and]
  have hm : Nat.testBit 0xFFFFFFF0 i = true := by
    interval_cases i <;> decide
  have h1 : Nat.testBit 1 i = false := by
    interval_cases i <;> decide
  simp [hm, h1]

/-- The low four bits after the rewriting are the code of a numeric input. -/
theorem injectParamTypes_low (p : Nat) :
    injectParamTypes p % 16 = TEE_PARAM_TYPE_VALUE_INPUT := by
  unfold injectParamTypes TEE_PARAM_TYPE_VALUE_INPUT
  apply Nat.eq_of_testBit_eq
  intro i
  have h16 : (16 : Nat) = 2 ^ 4 := by norm_num
  rw [h16, Nat.testBit_mod_two_pow, Nat.testBit_or, Nat.testBit_and]
  by_cases hi : i < 4
  · have hm : Nat.testBit 0xFFFFFFF0 i = false := by
      interval_cases i <;> decide
    simp [hi, hm]
  · have h1 : Nat.testBit 1 i = false := by
      apply Nat.testBit_lt_two_pow
      calc 1 < 2 ^ 4 := by norm_num
        _ ≤ 2 ^ i := Nat.pow_le_pow_right (by norm_num) (by omega)
    simp [hi, h1]

/-- The rewritten descriptor is a 32-bit value. -/
theorem injectParamTypes_lt (p : Nat) : injectParamTypes p < 2 ^ 32 := by
  unfold injectParamTypes TEE_PARAM_TYPE_VALUE_INPUT
  apply Nat.or_lt_two_pow
  · exact Nat.and_lt_two_pow p (by norm_num)
  · norm_num

/-- What `TEE_InvokeREECommand` hands to the proxy, in closed form. -/
theorem invokeSent_eq (env : InvokeEnv) (w : World) (p t c ty : Nat)
    (params : Option TEE_Params) (ro : Nat) (s : __ree_session_handle) (h : w.load p = some s) :
    invokeSent env w p t c ty params ro =
      some (setValueA (paramArray params env.iparam) s.handle) := by
  simp [invokeSent, invoke_run env w p t c ty params ro s h]

/-! ## The command invoker -/

/-- C1: for every session record `s` the code can be given (the record type
is private to the file and its handle is only ever written from a 32-bit
`value.a`, so `s.handle < 2 ^ 32`), every timeout, command identifier,
descriptor and caller parameter set, supplied with any slot 0 or absent,
the parameter set that `TEE_InvokeREECommand` sends to the proxy has
`value.a = s.handle` in slot 0. -/
theorem invoke_slot0_handle (env : InvokeEnv) (w : World) (p t c ty ro : Nat)
    (s : __ree_session_handle) (h : w.load p = some s) (hlt : s.handle < 2 ^ 32) :
    (∀ ps : TEE_Params, invokeSent env w p t c ty (some ps) ro =
        some [{ a := s.handle, b := ps.p0.b, rest := ps.p0.rest }, ps.p1, ps.p2, ps.p3]) ∧
    invokeSent env w p t c ty none ro =
        some [{ a := s.handle, b := env.iparam.b, rest := env.iparam.rest }] := by
  refine ⟨fun ps => ?_, ?_⟩
  · simp only [invokeSent_eq env w p t c ty _ ro s h, setValueA, paramArray,
      Nat.mod_eq_of_lt hlt]
  · simp only [invokeSent_eq env w p t c ty _ ro s h, setValueA, paramArray,
      Nat.mod_eq_of_lt hlt]

/-- The scenario of the specification: handle 42, command 7, caller
`slot0.value.a = 999`: 42 is sent. -/
theorem invoke_slot0_handle_witness :
    (w1.load 16 = some { handle := 42, session := 7 } ∧ (42 : Nat) < 2 ^ 32) ∧
    invokeSent { res := 0, iparam := { a := 0, b := 0, rest := 0 } } w1 16 0 7 0
        (some { p0 := { a := 999, b := 0, rest := 0 }, p1 := { a := 0, b := 0, rest := 0 },
                p2 := { a := 0, b := 0, rest := 0 }, p3 := { a := 0, b := 0, rest := 0 } }) 1 =
      some [{ a := 42, b := 0, rest := 0 }, { a := 0, b := 0, rest := 0 },
            { a := 0, b := 0, rest := 0 }, { a := 0, b := 0, rest := 0 }] :=
  ⟨by decide,
   (invoke_slot0_handle { res := 0, iparam := { a := 0, b := 0, rest := 0 } } w1 16 0 7 0 1
      { handle := 42, session := 7 } (by decide) (by decide)).1
      { p0 := { a := 999, b := 0, rest := 0 }, p1 := { a := 0, b := 0, rest := 0 },
        p2 := { a := 0, b := 0, rest := 0 }, p3 := { a := 0, b := 0, rest := 0 } }⟩

/-- C7: on every allocated session record `s`, with every timeout `t`,
command identifier `c` and return-origin pointer, `TEE_InvokeREECommand`
returns, adds to the trace exactly one call, a `TEE_InvokeTACommand` on
`s.session` with `t`, `c` and the return-origin pointer as given, and its
result is the result of that one call.  The heap, and so the session
record, and the open sessions are unchanged; the one store into caller
memory is the handle written to `params[0].value.a` when the caller
supplied an array. -/
theorem invoke_single_call (env : InvokeEnv) (w : World) (p t c ty : Nat)
    (params : Option TEE_Params) (ro : Nat) (s : __ree_session_handle)
    (h : w.load p = some s) :
    TEE_InvokeREECommand env w p t c ty params ro =
      some (env.res,
        { heap := w.heap, conns := w.conns,
          trace := w.trace ++ [Call.TEE_InvokeTACommand s.session t c (injectParamTypes ty)
            (setValueA (paramArray params env.iparam) s.handle) ro],
          stores := w.stores ++
            (match params with
             | some _ => [Store.params0_value_a (s.handle % 2 ^ 32)]
             | none => []),
          log := w.log }) ∧
    (TEE_InvokeREECommand env w p t c ty params ro).map (fun o => o.2.load p) =
      some (some s) := by
  rw [invoke_run env w p t c ty params ro s h]
  refine ⟨?_, by simpa [World.load] using h⟩
  cases params <;> rfl

/-- A failing command 7 on the session of `w1`, with a caller array: one
call, the error returned, the handle left in the caller's slot 0. -/
theorem invoke_single_call_witness :
    w1.load 16 = some { handle := 42, session := 7 } ∧
    TEE_InvokeREECommand { res := 0xFFFF0000, iparam := { a := 5, b := 6, rest := 7 } }
        w1 16 3 7 0x5555
        (some { p0 := { a := 999, b := 1, rest := 2 }, p1 := { a := 1, b := 1, rest := 1 },
                p2 := { a := 2, b := 2, rest := 2 }, p3 := { a := 3, b := 3, rest := 3 } }) 9 =
      some (0xFFFF0000,
        { heap := [(16, { handle := 42, session := 7 })], conns := [7],
          trace := [Call.TEE_InvokeTACommand 7 3 7 0x5551
            [{ a := 42, b := 1, rest := 2 }, { a := 1, b := 1, rest := 1 },
             { a := 2, b := 2, rest := 2 }, { a := 3, b := 3, rest := 3 }] 9],
          stores := [Store.params0_value_a 42], log := [] }) :=
  ⟨by decide,
   (invoke_single_call { res := 0xFFFF0000, iparam := { a := 5, b := 6, rest := 7 } }
      w1 16 3 7 0x5555
      (some { p0 := { a := 999, b := 1, rest := 2 }, p1 := { a := 1, b := 1, rest := 1 },
              p2 := { a := 2, b := 2, rest := 2 }, p3 := { a := 3, b := 3, rest := 3 } }) 9
      { handle := 42, session := 7 } (by decide)).1⟩

/-- C8, as stated, fails: two caller parameter sets that agree on slots 1-3
and differ in `slot0.value.b` are sent with different slots 0. -/
theorem invoke_slot0_discard_counterexample :
    w1.load 16 = some { handle := 42, session := 7 } ∧
    invokeSent { res := 0, iparam := { a := 0, b := 0, rest := 0 } } w1 16 0 7 0
        (some { p0 := { a := 999, b := 1, rest := 0 }, p1 := { a := 0, b := 0, rest := 0 },
                p2 := { a := 0, b := 0, rest := 0 }, p3 := { a := 0, b := 0, rest := 0 } }) 1 =
      some [{ a := 42, b := 1, rest := 0 }, { a := 0, b := 0, rest := 0 },
            { a := 0, b := 0, rest := 0 }, { a := 0, b := 0, rest := 0 }] ∧
    invokeSent { res := 0, iparam := { a := 0, b := 0, rest := 0 } } w1 16 0 7 0
        (some { p0 := { a := 999, b := 2, rest := 0 }, p1 := { a := 0, b := 0, rest := 0 },
                p2 := { a := 0, b := 0, rest := 0 }, p3 := { a := 0, b := 0, rest := 0 } }) 1 =
      some [{ a := 42, b := 2, rest := 0 }, { a := 0, b := 0, rest := 0 },
            { a := 0, b := 0, rest := 0 }, { a := 0, b := 0, rest := 0 }] ∧
    ({ a := 42, b := 1, rest := 0 } : TEE_Param) ≠ { a := 42, b := 2, rest := 0 } := by
  decide

/-- C8 (amended): parameter injection replaces the `value.a` word of the
caller's slot 0 and nothing else.  For every session record and every two
caller parameter sets `ps` and `qs` that agree on slots 1-3, the slot 0 sent
has the same `value.a` in both runs (the handle mod `2 ^ 32`), while its
`value.b` and the rest of its storage are the ones of the caller's own slot
0; the slots 0 sent are the same in both runs when the callers' slots 0
differ in `value.a` only; and slots 1-3 are sent as the caller gave them. -/
theorem invoke_slot0_value_a_only (env : InvokeEnv) (w : World) (p t c ty ro : Nat)
    (s : __ree_session_handle) (ps qs : TEE_Params) (h : w.load p = some s)
    (e1 : ps.p1 = qs.p1) (e2 : ps.p2 = qs.p2) (e3 : ps.p3 = qs.p3) :
    invokeSent env w p t c ty (some ps) ro =
      some [{ a := s.handle % 2 ^ 32, b := ps.p0.b, rest := ps.p0.rest },
            ps.p1, ps.p2, ps.p3] ∧
    invokeSent env w p t c ty (some qs) ro =
      some [{ a := s.handle % 2 ^ 32, b := qs.p0.b, rest := qs.p0.rest },
            ps.p1, ps.p2, ps.p3] ∧
    (ps.p0.b = qs.p0.b → ps.p0.rest = qs.p0.rest →
      invokeSent env w p t c ty (some ps) ro = invokeSent env w p t c ty (some qs) ro) := by
  have hp := invokeSent_eq env w p t c ty (some ps) ro s h
  have hq := invokeSent_eq env w p t c ty (some qs) ro s h
  simp only [setValueA, paramArray] at hp hq
  refine ⟨hp, ?_, fun hb hr => ?_⟩
  · rw [hq, e1, e2, e3]
  · rw [hp, hq, e1, e2, e3, hb, hr]

/-- Two callers that differ in `slot0.value.a` only: the same array is sent. -/
theorem invoke_slot0_value_a_only_witness :
    w1.load 16 = some { handle := 42, session := 7 } ∧
    invokeSent { res := 0, iparam := { a := 0, b := 0, rest := 0 } } w1 16 0 7 0
        (some { p0 := { a := 999, b := 3, rest := 4 }, p1 := { a := 1, b := 1, rest := 1 },
                p2 := { a := 2, b := 2, rest := 2 }, p3 := { a := 3, b := 3, rest := 3 } }) 1 =
    invokeSent { res := 0, iparam := { a := 0, b := 0, rest := 0 } } w1 16 0 7 0
        (some { p0 := { a := 111, b := 3, rest := 4 }, p1 := { a := 1, b := 1, rest := 1 },
                p2 := { a := 2, b := 2, rest := 2 }, p3 := { a := 3, b := 3, rest := 3 } }) 1 :=
  ⟨by decide,
   (invoke_slot0_value_a_only { res := 0, iparam := { a := 0, b := 0, rest := 0 } } w1 16 0 7 0 1
      { handle := 42, session := 7 }
      { p0 := { a := 999, b := 3, rest := 4 }, p1 := { a := 1, b := 1, rest := 1 },
        p2 := { a := 2, b := 2, rest := 2 }, p3 := { a := 3, b := 3, rest := 3 } }
      { p0 := { a := 111, b := 3, rest := 4 }, p1 := { a := 1, b := 1, rest := 1 },
        p2 := { a := 2, b := 2, rest := 2 }, p3 := { a := 3, b := 3, rest := 3 } }
      (by decide) rfl rfl rfl).2.2 rfl rfl⟩

/-! ## The session establisher -/

/-- The calls of `TEE_OpenREESession` once the resolve command has succeeded. -/
theorem open_trace_start (k : Decls) (env : OpenEnv) (w : World) (d t ty : Nat)
    (params : Option TEE_Params) (out ro : Nat) (hd : d ≠ 0) (ho : out ≠ 0) (hr : ro ≠ 0)
    (hm : env.malloc_ret ≠ 0)
    (h1 : env.open_res = TEE_SUCCESS) (h2 : env.resolve_res = TEE_SUCCESS) :
    (TEE_OpenREESession k env w d t ty params out ro).map (fun o => o.2.trace) =
      some (w.trace ++ [Call.TEE_Malloc env.malloc_ret, openCall k, resolveCall k env d ro,
        startCall k env t ty params ro] ++
        (if env.start_res = TEE_SUCCESS then []
         else [Call.TEE_CloseTASession env.open_session, Call.TEE_Free env.malloc_ret])) := by
  by_cases h3 : env.start_res = TEE_SUCCESS
  · simp [open_run_ok k env w d t ty params out ro hd ho hr hm h1 h2 h3, h3]
  · simp [open_run_start_fail k env w d t ty params out ro hd ho hr hm h1 h2 h3, h3]

/-- C2: for every descriptor `p`, the descriptor that `TEE_InvokeREECommand`
passes to the proxy, and the one that the start-service call of
`TEE_OpenREESession` passes, is `(p AND 0xFFFFFFF0) OR 1`; its bits 4..31
are those of `p`, its low four bits are the numeric-input code
`TEE_PARAM_TYPE_VALUE_INPUT = 1`, and it is a 32-bit value. -/
theorem descriptor_rewrite (p : Nat) :
    (∀ (env : InvokeEnv) (w : World) (q t c : Nat) (params : Option TEE_Params) (ro : Nat)
        (s : __ree_session_handle), w.load q = some s →
      (TEE_InvokeREECommand env w q t c p params ro).map (fun o => o.2.trace) =
        some (w.trace ++ [Call.TEE_InvokeTACommand s.session t c ((p &&& 0xFFFFFFF0) ||| 1)
          (setValueA (paramArray params env.iparam) s.handle) ro])) ∧
    (∀ (k : Decls) (env : OpenEnv) (w : World) (d t : Nat) (params : Option TEE_Params)
        (out ro : Nat), d ≠ 0 → out ≠ 0 → ro ≠ 0 → env.malloc_ret ≠ 0 →
        env.open_res = TEE_SUCCESS → env.resolve_res = TEE_SUCCESS →
      (TEE_OpenREESession k env w d t p params out ro).map (fun o => o.2.trace) =
        some (w.trace ++ [Call.TEE_Malloc env.malloc_ret, openCall k, resolveCall k env d ro,
          Call.TEE_InvokeTACommand env.open_session t k.OPTEE_MRC_GENERIC_SERVICE_START
            ((p &&& 0xFFFFFFF0) ||| 1)
            (setValueA (paramArray params { a := 0, b := 0, rest := 0 }) env.resolve_out.a)
            ro] ++
          (if env.start_res = TEE_SUCCESS then []
           else [Call.TEE_CloseTASession env.open_session, Call.TEE_Free env.malloc_ret]))) ∧
    injectParamTypes p = (p &&& 0xFFFFFFF0) ||| 1 ∧
    (∀ i, 4 ≤ i → i < 32 → ((p &&& 0xFFFFFFF0) ||| 1).testBit i = p.testBit i) ∧
    ((p &&& 0xFFFFFFF0) ||| 1) % 16 = TEE_PARAM_TYPE_VALUE_INPUT ∧
    TEE_PARAM_TYPE_VALUE_INPUT = 1 ∧
    (p &&& 0xFFFFFFF0) ||| 1 < 2 ^ 32 := by
  refine ⟨?_, ?_, rfl, ?_, ?_, rfl, ?_⟩
  · intro env w q t c params ro s h
    rw [invoke_run env w q t c p params ro s h]
    rfl
  · intro k env w d t params out ro hd ho hr hm h1 h2
    rw [open_trace_start k env w d t p params out ro hd ho hr hm h1 h2]
    rfl
  · intro i h4 h32
    exact injectParamTypes_testBit p i h4 h32
  · exact injectParamTypes_low p
  · exact injectParamTypes_lt p

/-- The descriptor `0x5555` on command 7: `0x5551` is passed. -/
theorem descriptor_rewrite_witness :
    w1.load 16 = some { handle := 42, session := 7 } ∧
    (TEE_InvokeREECommand { res := 0, iparam := { a := 5, b := 6, rest := 7 } }
        w1 16 3 7 0x5555 none 9).map (fun o => o.2.trace) =
      some [Call.TEE_InvokeTACommand 7 3 7 0x5551 [{ a := 42, b := 6, rest := 7 }] 9] :=
  ⟨by decide,
   (descriptor_rewrite 0x5555).1 { res := 0, iparam := { a := 5, b := 6, rest := 7 } }
      w1 16 3 7 none 9 { handle := 42, session := 7 } (by decide)⟩

/-- C6: when the identifier pointer, the output-session pointer or the
return-origin pointer is null, `TEE_OpenREESession` returns
`TEE_ERROR_BAD_PARAMETERS` and leaves the world as it was: no allocation, no
call to the proxy, no store through a caller pointer.  When all three are
non-null the call goes past the check: its first act is the `TEE_Malloc`. -/
theorem open_null_check (k : Decls) (env : OpenEnv) (w : World) (d t ty : Nat)
    (params : Option TEE_Params) (out ro : Nat) :
    (d = 0 ∨ out = 0 ∨ ro = 0 →
      TEE_OpenREESession k env w d t ty params out ro = some (TEE_ERROR_BAD_PARAMETERS, w)) ∧
    (d ≠ 0 → out ≠ 0 → ro ≠ 0 →
      ∃ res w' post, TEE_OpenREESession k env w d t ty params out ro = some (res, w') ∧
        w'.trace = w.trace ++ Call.TEE_Malloc env.malloc_ret :: post) := by
  refine ⟨fun h => open_run_null k env w d t ty params out ro h, fun hd ho hr => ?_⟩
  by_cases hm : env.malloc_ret = 0
  · exact ⟨_, _, [], open_run_oom k env w d t ty params out ro hd ho hr hm, by simp [hm]⟩
  by_cases h1 : env.open_res = TEE_SUCCESS
  swap
  · exact ⟨_, _, _, open_run_open_fail k env w d t ty params out ro hd ho hr hm h1, rfl⟩
  by_cases h2 : env.resolve_res = TEE_SUCCESS
  swap
  · exact ⟨_, _, _, open_run_resolve_fail k env w d t ty params out ro hd ho hr hm h1 h2, rfl⟩
  by_cases h3 : env.start_res = TEE_SUCCESS
  · exact ⟨_, _, _, open_run_ok k env w d t ty params out ro hd ho hr hm h1 h2 h3, rfl⟩
  · exact ⟨_, _, _, open_run_start_fail k env w d t ty params out ro hd ho hr hm h1 h2 h3, rfl⟩

/-- A null output-session pointer: nothing happens, even though every step
would succeed. -/
theorem open_null_check_witness :
    TEE_OpenREESession k0 envOk w1 1000 3 0x5555 none 0 3000 =
      some (TEE_ERROR_BAD_PARAMETERS, w1) :=
  (open_null_check k0 envOk w1 1000 3 0x5555 none 0 3000).1 (by decide)

/-- C3: with non-null required pointers, a successful allocation and a
`TEE_OpenTASession` that delivers a non-null handle whenever it succeeds,
when the first failing step is the connection-open, the resolve command or
the start command, `TEE_OpenREESession` returns that step's code; the calls
made stop at that step and are followed only by the close of the TA session
and the release of the record; nothing is stored through the output-session
pointer; and the heap and the set of open TA sessions are what they were
before the call.  The one store into caller memory is on the start-failure
path with a caller array: the handle written to `params[0].value.a` before
the start command, which the label `err:` does not undo. -/
theorem open_all_or_nothing (k : Decls) (env : OpenEnv) (w : World) (d t ty : Nat)
    (params : Option TEE_Params) (out ro : Nat) (hd : d ≠ 0) (ho : out ≠ 0) (hr : ro ≠ 0)
    (hm : env.malloc_ret ≠ 0)
    (hs : env.open_res = TEE_SUCCESS → env.open_session ≠ TEE_HANDLE_NULL) :
    (env.open_res ≠ TEE_SUCCESS →
      TEE_OpenREESession k env w d t ty params out ro =
        some (env.open_res,
          { heap := w.heap, conns := w.conns,
            trace := w.trace ++ [Call.TEE_Malloc env.malloc_ret, openCall k,
              Call.TEE_CloseTASession TEE_HANDLE_NULL, Call.TEE_Free env.malloc_ret],
            stores := w.stores,
            log := w.log ++ ["Failed to open session on REE\n"] })) ∧
    (env.open_res = TEE_SUCCESS → env.resolve_res ≠ TEE_SUCCESS →
      TEE_OpenREESession k env w d t ty params out ro =
        some (env.resolve_res,
          { heap := w.heap, conns := w.conns,
            trace := w.trace ++ [Call.TEE_Malloc env.malloc_ret, openCall k,
              resolveCall k env d ro,
              Call.TEE_CloseTASession env.open_session, Call.TEE_Free env.malloc_ret],
            stores := w.stores,
            log := w.log ++ ["Failed to find the ree service\n"] })) ∧
    (env.open_res = TEE_SUCCESS → env.resolve_res = TEE_SUCCESS →
        env.start_res ≠ TEE_SUCCESS →
      TEE_OpenREESession k env w d t ty params out ro =
        some (env.start_res,
          { heap := w.heap, conns := w.conns,
            trace := w.trace ++ [Call.TEE_Malloc env.malloc_ret, openCall k,
              resolveCall k env d ro, startCall k env t ty params ro,
              Call.TEE_CloseTASession env.open_session, Call.TEE_Free env.malloc_ret],
            stores := w.stores ++
              (match params with
               | some _ => [Store.params0_value_a (env.resolve_out.a % 2 ^ 32)]
               | none => []),
            log := w.log ++ ["Failed to initialize REE service\n"] })) ∧
    (∀ res w', TEE_OpenREESession k env w d t ty params out ro = some (res, w') →
      res ≠ TEE_SUCCESS → ∀ v, Store.ree_session out v ∈ w'.stores →
        Store.ree_session out v ∈ w.stores) := by
  have e1 := open_run_open_fail k env w d t ty params out ro hd ho hr hm
  have e2 := open_run_resolve_fail k env w d t ty params out ro hd ho hr hm
  have e3 := open_run_start_fail k env w d t ty params out ro hd ho hr hm
  have e4 := open_run_ok k env w d t ty params out ro hd ho hr hm
  refine ⟨fun h1 => e1 h1, fun h1 h2 => ?_, fun h1 h2 h3 => ?_, fun res w' hrun hres v hv => ?_⟩
  · rw [e2 h1 h2]
    simp [closedConns, hs h1]
  · rw [e3 h1 h2 h3]
    cases params <;> simp [closedConns, hs h1, paramStore]
  · by_cases h1 : env.open_res = TEE_SUCCESS
    swap
    · rw [e1 h1] at hrun
      cases hrun
      exact hv
    by_cases h2 : env.resolve_res = TEE_SUCCESS
    swap
    · rw [e2 h1 h2] at hrun
      cases hrun
      exact hv
    by_cases h3 : env.start_res = TEE_SUCCESS
    · rw [e4 h1 h2 h3] at hrun
      cases hrun
      exact absurd rfl hres
    · rw [e3 h1 h2 h3] at hrun
      cases hrun
      cases params <;> simpa [paramStore] using hv

/-- The start command fails with `0xFFFF0000` after a successful resolve,
the caller having supplied an array: that code is returned, the session `7`
is closed, the record at `32` freed, the heap and open sessions of `w1` are
as before, and the only store is the handle 42 left in the caller's slot 0. -/
theorem open_all_or_nothing_witness :
    (1000 ≠ 0 ∧ 2000 ≠ 0 ∧ 3000 ≠ 0 ∧ envStartFails.malloc_ret ≠ 0 ∧
      (envStartFails.open_res = TEE_SUCCESS →
        envStartFails.open_session ≠ TEE_HANDLE_NULL)) ∧
    TEE_OpenREESession k0 envStartFails w1 1000 3 0x5555
        (some { p0 := { a := 999, b := 1, rest := 2 }, p1 := { a := 1, b := 1, rest := 1 },
                p2 := { a := 2, b := 2, rest := 2 }, p3 := { a := 3, b := 3, rest := 3 } })
        2000 3000 =
      some (0xFFFF0000,
        { heap := [(16, { handle := 42, session := 7 })], conns := [7],
          trace := [Call.TEE_Malloc 32, openCall k0,
            resolveCall k0 envStartFails 1000 3000,
            Call.TEE_InvokeTACommand 7 3 101 0x5551
              [{ a := 42, b := 1, rest := 2 }, { a := 1, b := 1, rest := 1 },
               { a := 2, b := 2, rest := 2 }, { a := 3, b := 3, rest := 3 }] 3000,
            Call.TEE_CloseTASession 7, Call.TEE_Free 32],
          stores := [Store.params0_value_a 42],
          log := ["Failed to initialize REE service\n"] }) :=
  ⟨by decide,
   (open_all_or_nothing k0 envStartFails w1 1000 3 0x5555
      (some { p0 := { a := 999, b := 1, rest := 2 }, p1 := { a := 1, b := 1, rest := 1 },
              p2 := { a := 2, b := 2, rest := 2 }, p3 := { a := 3, b := 3, rest := 3 } })
      2000 3000
      (by decide) (by decide) (by decide) (by decide) (by decide)).2.2.1
      (by decide) (by decide) (by decide)⟩

/-- C5: when the required pointers are non-null and allocation, the
connection-open, the resolve command and the start command all succeed
(the proxy returning a 32-bit `value.a` in slot 1 of the resolve command),
`TEE_OpenREESession` returns `TEE_SUCCESS`; the calls it makes are the
allocation, one `TEE_OpenTASession`, one `OPTEE_MRC_GENERIC_OPEN` command and
one `OPTEE_MRC_GENERIC_SERVICE_START` command with the caller's timeout and
the returned value in `value.a` of slot 0, and no close and no free; the
stores into caller memory are the handle written to `params[0].value.a`
when the caller supplied an array, then the address of the new record
through the output-session pointer; and that record holds the TA session
just opened and, as handle, the value the proxy returned. -/
theorem open_success (k : Decls) (env : OpenEnv) (w : World) (d t ty : Nat)
    (params : Option TEE_Params) (out ro : Nat) (hd : d ≠ 0) (ho : out ≠ 0) (hr : ro ≠ 0)
    (hm : env.malloc_ret ≠ 0) (hty : env.resolve_out.a < 2 ^ 32)
    (h1 : env.open_res = TEE_SUCCESS) (h2 : env.resolve_res = TEE_SUCCESS)
    (h3 : env.start_res = TEE_SUCCESS) :
    TEE_OpenREESession k env w d t ty params out ro =
      some (TEE_SUCCESS,
        { heap := (env.malloc_ret,
                   { handle := env.resolve_out.a, session := env.open_session }) :: w.heap,
          conns := env.open_session :: w.conns,
          trace := w.trace ++ [Call.TEE_Malloc env.malloc_ret,
            Call.TEE_OpenTASession k.PTA_GENERIC_UUID 0 0 none 0,
            resolveCall k env d ro,
            Call.TEE_InvokeTACommand env.open_session t k.OPTEE_MRC_GENERIC_SERVICE_START
              (injectParamTypes ty)
              (match params with
               | some ps => [{ a := env.resolve_out.a, b := ps.p0.b, rest := ps.p0.rest },
                             ps.p1, ps.p2, ps.p3]
               | none => [{ a := env.resolve_out.a, b := 0, rest := 0 }])
              ro],
          stores := w.stores ++
            (match params with
             | some _ => [Store.params0_value_a env.resolve_out.a]
             | none => []) ++
            [Store.ree_session out env.malloc_ret],
          log := w.log }) ∧
    (TEE_OpenREESession k env w d t ty params out ro).map
        (fun o => o.2.load env.malloc_ret) =
      some (some { handle := env.resolve_out.a, session := env.open_session }) := by
  rw [open_run_ok k env w d t ty params out ro hd ho hr hm h1 h2 h3]
  refine ⟨?_, by simp [World.load]⟩
  cases params <;>
    simp only [startCall, openCall, setValueA, paramArray, paramStore, Nat.mod_eq_of_lt hty]

/-- The scenario of the specification: the proxy resolves to 42, the record
at `32` gets handle 42 and the start command carries 42 in slot 0 of the
caller's array. -/
theorem open_success_witness :
    ((1000 ≠ 0 ∧ 2000 ≠ 0 ∧ 3000 ≠ 0) ∧ envOk.malloc_ret ≠ 0 ∧ envOk.resolve_out.a < 2 ^ 32 ∧
      envOk.open_res = TEE_SUCCESS ∧ envOk.resolve_res = TEE_SUCCESS ∧
      envOk.start_res = TEE_SUCCESS) ∧
    TEE_OpenREESession k0 envOk w0 1000 3 0x5555
        (some { p0 := { a := 999, b := 1, rest := 2 }, p1 := { a := 1, b := 1, rest := 1 },
                p2 := { a := 2, b := 2, rest := 2 }, p3 := { a := 3, b := 3, rest := 3 } })
        2000 3000 =
      some (TEE_SUCCESS,
        { heap := [(32, { handle := 42, session := 7 })],
          conns := [7],
          trace := [Call.TEE_Malloc 32,
            Call.TEE_OpenTASession k0.PTA_GENERIC_UUID 0 0 none 0,
            Call.TEE_InvokeTACommand 7 0 100 0x25
              [{ a := 1000, b := 0, rest := 16 }, { a := 0, b := 0, rest := 0 },
               { a := 0, b := 0, rest := 0 }, { a := 0, b := 0, rest := 0 }] 3000,
            Call.TEE_InvokeTACommand 7 3 101 0x5551
              [{ a := 42, b := 1, rest := 2 }, { a := 1, b := 1, rest := 1 },
               { a := 2, b := 2, rest := 2 }, { a := 3, b := 3, rest := 3 }] 3000],
          stores := [Store.params0_value_a 42, Store.ree_session 2000 32],
          log := [] }) :=
  ⟨by decide,
   (open_success k0 envOk w0 1000 3 0x5555
      (some { p0 := { a := 999, b := 1, rest := 2 }, p1 := { a := 1, b := 1, rest := 1 },
              p2 := { a := 2, b := 2, rest := 2 }, p3 := { a := 3, b := 3, rest := 3 } })
      2000 3000 (by decide) (by decide) (by decide)
      (by decide) (by decide) (by decide) (by decide) (by decide)).1⟩

/-! ## Teardown -/

/-- C4: for every allocated session record `s` the code can be given (the
record type is private to the file and its handle is only ever written from
a 32-bit `value.a`, so `s.handle < 2 ^ 32`) and every pair of results of the
two teardown commands, `TEE_CloseREESession` returns and makes exactly
these calls: the `OPTEE_MRC_GENERIC_SERVICE_STOP` command, then the
`OPTEE_MRC_GENERIC_CLOSE` command, then `TEE_CloseTASession`, all on
`s.session`; each command carries `s.handle` in `value.a` of slot 0, with a
descriptor whose slot 0 is numeric-input and whose slots 1-3 are none; a
failure of either command changes the diagnostics only. -/
theorem close_sequence (k : Decls) (env : CloseEnv) (w : World) (p : Nat)
    (s : __ree_session_handle) (h : w.load p = some s) (hlt : s.handle < 2 ^ 32) :
    TEE_CloseREESession k env w p =
      some { heap := w.heap,
             conns := if s.session = TEE_HANDLE_NULL then w.conns else w.conns.erase s.session,
             trace := w.trace ++
               [Call.TEE_InvokeTACommand s.session 0 k.OPTEE_MRC_GENERIC_SERVICE_STOP
                  TEE_PARAM_TYPE_VALUE_INPUT
                  [{ a := s.handle, b := env.param.b, rest := env.param.rest }] 0,
                Call.TEE_InvokeTACommand s.session 0 k.OPTEE_MRC_GENERIC_CLOSE
                  TEE_PARAM_TYPE_VALUE_INPUT
                  [{ a := s.handle, b := env.param.b, rest := env.param.rest }] 0,
                Call.TEE_CloseTASession s.session],
             stores := w.stores,
             log := w.log ++ closeLog env } ∧
    TEE_PARAM_TYPE_GET TEE_PARAM_TYPE_VALUE_INPUT 0 = TEE_PARAM_TYPE_VALUE_INPUT ∧
    TEE_PARAM_TYPE_GET TEE_PARAM_TYPE_VALUE_INPUT 1 = TEE_PARAM_TYPE_NONE ∧
    TEE_PARAM_TYPE_GET TEE_PARAM_TYPE_VALUE_INPUT 2 = TEE_PARAM_TYPE_NONE ∧
    TEE_PARAM_TYPE_GET TEE_PARAM_TYPE_VALUE_INPUT 3 = TEE_PARAM_TYPE_NONE := by
  rw [close_run k env w p s h]
  refine ⟨?_, by decide, by decide, by decide, by decide⟩
  simp only [Nat.mod_eq_of_lt hlt]

/-- Both teardown commands fail on the session of `w1`: all three calls are
made all the same, each command carrying the handle 42. -/
theorem close_sequence_witness :
    (w1.load 16 = some { handle := 42, session := 7 } ∧ (42 : Nat) < 2 ^ 32) ∧
    TEE_CloseREESession k0
        { stop_res := 0xFFFF0000, close_res := 0xFFFF0001,
          param := { a := 5, b := 6, rest := 7 } } w1 16 =
      some { heap := [(16, { handle := 42, session := 7 })],
             conns := [],
             trace := [Call.TEE_InvokeTACommand 7 0 102 1 [{ a := 42, b := 6, rest := 7 }] 0,
                       Call.TEE_InvokeTACommand 7 0 103 1 [{ a := 42, b := 6, rest := 7 }] 0,
                       Call.TEE_CloseTASession 7],
             stores := [],
             log := ["Failed to close the REE service\n", "Failed to close the session\n"] } :=
  ⟨by decide,
   (close_sequence k0
      { stop_res := 0xFFFF0000, close_res := 0xFFFF0001,
        param := { a := 5, b := 6, rest := 7 } } w1 16 { handle := 42, session := 7 }
      (by decide) (by decide)).1⟩

/-! ## The width of the handle -/

/-- C9: the handle field is 64 bits wide, but the record left by a
successful `TEE_OpenREESession` holds as handle the 32-bit `value.a` that
the proxy returned in slot 1 of the resolve command, so it is below
`2 ^ 32`; on that record `TEE_InvokeREECommand` and `TEE_CloseREESession`
write into `value.a` of slot 0 the handle itself, nothing is cut off.  On
an arbitrary record with a handle of `2 ^ 32` or more, what they write is
`handle mod 2 ^ 32`, which is not the handle. -/
theorem handle_fits_32_bits (k : Decls) (env : OpenEnv) (w : World) (d t ty : Nat)
    (params : Option TEE_Params) (out ro : Nat) (hd : d ≠ 0) (ho : out ≠ 0) (hr : ro ≠ 0)
    (hm : env.malloc_ret ≠ 0) (hty : env.resolve_out.a < 2 ^ 32)
    (h1 : env.open_res = TEE_SUCCESS) (h2 : env.resolve_res = TEE_SUCCESS)
    (h3 : env.start_res = TEE_SUCCESS) :
    (∃ w₁ s, TEE_OpenREESession k env w d t ty params out ro = some (TEE_SUCCESS, w₁) ∧
      w₁.load env.malloc_ret = some s ∧ s.handle = env.resolve_out.a ∧ s.handle < 2 ^ 32 ∧
      (∀ (ienv : InvokeEnv) (t' c ty' ro' : Nat) (ps : TEE_Params),
        invokeSent ienv w₁ env.malloc_ret t' c ty' (some ps) ro' =
          some [{ a := s.handle, b := ps.p0.b, rest := ps.p0.rest }, ps.p1, ps.p2, ps.p3]) ∧
      (∀ (ienv : InvokeEnv) (t' c ty' ro' : Nat),
        invokeSent ienv w₁ env.malloc_ret t' c ty' none ro' =
          some [{ a := s.handle, b := ienv.iparam.b, rest := ienv.iparam.rest }]) ∧
      (∀ cenv : CloseEnv,
        (TEE_CloseREESession k cenv w₁ env.malloc_ret).map (fun o => o.trace) =
          some (w₁.trace ++
            [Call.TEE_InvokeTACommand s.session 0 k.OPTEE_MRC_GENERIC_SERVICE_STOP
               TEE_PARAM_TYPE_VALUE_INPUT
               [{ a := s.handle, b := cenv.param.b, rest := cenv.param.rest }] 0,
             Call.TEE_InvokeTACommand s.session 0 k.OPTEE_MRC_GENERIC_CLOSE
               TEE_PARAM_TYPE_VALUE_INPUT
               [{ a := s.handle, b := cenv.param.b, rest := cenv.param.rest }] 0,
             Call.TEE_CloseTASession s.session]))) ∧
    (∀ (w' : World) (p : Nat) (s : __ree_session_handle), w'.load p = some s → 2 ^ 32 ≤ s.handle →
      s.handle % 2 ^ 32 ≠ s.handle ∧
      (∀ (ienv : InvokeEnv) (t' c ty' ro' : Nat) (ps : Option TEE_Params),
        invokeSent ienv w' p t' c ty' ps ro' =
          some (match ps with
            | some ps => [{ a := s.handle % 2 ^ 32, b := ps.p0.b, rest := ps.p0.rest },
                          ps.p1, ps.p2, ps.p3]
            | none => [{ a := s.handle % 2 ^ 32, b := ienv.iparam.b,
                         rest := ienv.iparam.rest }])) ∧
      (∀ cenv : CloseEnv,
        (TEE_CloseREESession k cenv w' p).map (fun o => o.trace) =
          some (w'.trace ++
            [Call.TEE_InvokeTACommand s.session 0 k.OPTEE_MRC_GENERIC_SERVICE_STOP
               TEE_PARAM_TYPE_VALUE_INPUT
               [{ a := s.handle % 2 ^ 32, b := cenv.param.b, rest := cenv.param.rest }] 0,
             Call.TEE_InvokeTACommand s.session 0 k.OPTEE_MRC_GENERIC_CLOSE
               TEE_PARAM_TYPE_VALUE_INPUT
               [{ a := s.handle % 2 ^ 32, b := cenv.param.b, rest := cenv.param.rest }] 0,
             Call.TEE_CloseTASession s.session]))) := by
  constructor
  · have hl : World.load
        { heap := (env.malloc_ret,
                   { handle := env.resolve_out.a, session := env.open_session }) :: w.heap,
          conns := env.open_session :: w.conns,
          trace := w.trace ++ [Call.TEE_Malloc env.malloc_ret, openCall k,
            resolveCall k env d ro, startCall k env t ty params ro],
          stores := w.stores ++ paramStore params env.resolve_out.a ++
            [Store.ree_session out env.malloc_ret],
          log := w.log } env.malloc_ret =
        some { handle := env.resolve_out.a, session := env.open_session } := by
      simp [World.load]
    refine ⟨_, _, open_run_ok k env w d t ty params out ro hd ho hr hm h1 h2 h3, hl, rfl, hty,
      fun ienv t' c ty' ro' ps => ?_, fun ienv t' c ty' ro' => ?_, fun cenv => ?_⟩
    · simp only [invokeSent_eq ienv _ _ t' c ty' _ ro' _ hl, setValueA, paramArray,
        Nat.mod_eq_of_lt hty]
    · simp only [invokeSent_eq ienv _ _ t' c ty' _ ro' _ hl, setValueA, paramArray,
        Nat.mod_eq_of_lt hty]
    · rw [close_run k cenv _ _ _ hl]
      simp only [Option.map, Nat.mod_eq_of_lt hty]
  · intro w' p s hl hbig
    refine ⟨?_, fun ienv t' c ty' ro' ps => ?_, fun cenv => ?_⟩
    · have := Nat.mod_lt s.handle (show 0 < 2 ^ 32 by norm_num)
      omega
    · rw [invokeSent_eq ienv w' p t' c ty' ps ro' s hl]
      cases ps <;> rfl
    · rw [close_run k cenv w' p s hl]
      rfl

/-- The scenario of the specification: the proxy resolves to 42, the record
at `32` holds 42, and 42 is what a later invocation and the teardown send. -/
theorem handle_fits_32_bits_witness :
    ((1000 ≠ 0 ∧ 2000 ≠ 0 ∧ 3000 ≠ 0) ∧ envOk.malloc_ret ≠ 0 ∧ envOk.resolve_out.a < 2 ^ 32 ∧
      envOk.open_res = TEE_SUCCESS ∧ envOk.resolve_res = TEE_SUCCESS ∧
      envOk.start_res = TEE_SUCCESS) ∧
    ∃ w₁ s, TEE_OpenREESession k0 envOk w0 1000 3 0x5555 none 2000 3000 =
        some (TEE_SUCCESS, w₁) ∧
      w₁.load 32 = some s ∧ s.handle = 42 ∧ s.handle < 2 ^ 32 :=
  ⟨by decide,
   match (handle_fits_32_bits k0 envOk w0 1000 3 0x5555 none 2000 3000 (by decide) (by decide)
      (by decide) (by decide) (by decide) (by decide) (by decide) (by decide)).1 with
   | ⟨w₁, s, ho, hl, hh, hlt, _⟩ => ⟨w₁, s, ho, hl, hh, hlt⟩⟩

/-! ## Who releases the session record -/

/-- The releases of a trace made of two parts. -/
theorem frees_append (xs ys : List Call) : frees (xs ++ ys) = frees xs ++ frees ys := by
  induction xs with
  | nil => rfl
  | cons c cs ih => cases c <;> simp [frees, ih]

/-- C10: with non-null required pointers and a successful allocation, on
every failure path of `TEE_OpenREESession` after the allocation the record
is released by exactly one `TEE_Free` and the heap is what it was before
the call; `TEE_CloseREESession` makes no `TEE_Free` and leaves the heap,
and so the record it is given, as they were; hence after a successful
establish followed by teardown the record allocated by the establish is
still allocated, with the handle and the TA session it was given. -/
theorem session_record_release (k : Decls) (env : OpenEnv) (w : World) (d t ty : Nat)
    (params : Option TEE_Params) (out ro : Nat) (hd : d ≠ 0) (ho : out ≠ 0) (hr : ro ≠ 0)
    (hm : env.malloc_ret ≠ 0) :
    (¬ (env.open_res = TEE_SUCCESS ∧ env.resolve_res = TEE_SUCCESS ∧
          env.start_res = TEE_SUCCESS) →
      ∃ res w', TEE_OpenREESession k env w d t ty params out ro = some (res, w') ∧
        res ≠ TEE_SUCCESS ∧
        frees w'.trace = frees w.trace ++ [env.malloc_ret] ∧ w'.heap = w.heap) ∧
    (∀ (cenv : CloseEnv) (w' : World) (p : Nat) (s : __ree_session_handle),
      w'.load p = some s →
      ∃ w'', TEE_CloseREESession k cenv w' p = some w'' ∧
        frees w''.trace = frees w'.trace ∧ w''.heap = w'.heap ∧ w''.load p = some s) ∧
    (env.open_res = TEE_SUCCESS → env.resolve_res = TEE_SUCCESS →
        env.start_res = TEE_SUCCESS →
      ∀ cenv : CloseEnv, ∃ w₁ w₂,
        TEE_OpenREESession k env w d t ty params out ro = some (TEE_SUCCESS, w₁) ∧
        w₁.stores = w.stores ++
          (match params with
           | some _ => [Store.params0_value_a (env.resolve_out.a % 2 ^ 32)]
           | none => []) ++ [Store.ree_session out env.malloc_ret] ∧
        w₁.load env.malloc_ret =
          some { handle := env.resolve_out.a, session := env.open_session } ∧
        TEE_CloseREESession k cenv w₁ env.malloc_ret = some w₂ ∧
        w₂.load env.malloc_ret =
          some { handle := env.resolve_out.a, session := env.open_session } ∧
        w₂.heap = w₁.heap ∧
        frees w₂.trace = frees w.trace) := by
  have hclose : ∀ (cenv : CloseEnv) (w' : World) (p : Nat) (s : __ree_session_handle),
      w'.load p = some s →
      ∃ w'', TEE_CloseREESession k cenv w' p = some w'' ∧
        frees w''.trace = frees w'.trace ∧ w''.heap = w'.heap ∧ w''.load p = some s := by
    intro cenv w' p s hl
    refine ⟨_, close_run k cenv w' p s hl, ?_, rfl, ?_⟩
    · simp [frees_append, frees]
    · simpa [World.load] using hl
  refine ⟨fun hfail => ?_, hclose, fun h1 h2 h3 cenv => ?_⟩
  · by_cases h1 : env.open_res = TEE_SUCCESS
    swap
    · exact ⟨_, _, open_run_open_fail k env w d t ty params out ro hd ho hr hm h1, h1,
        by simp [frees_append, frees, openCall], rfl⟩
    by_cases h2 : env.resolve_res = TEE_SUCCESS
    swap
    · exact ⟨_, _, open_run_resolve_fail k env w d t ty params out ro hd ho hr hm h1 h2, h2,
        by simp [frees_append, frees, openCall, resolveCall], rfl⟩
    have h3 : env.start_res ≠ TEE_SUCCESS := fun h3 => hfail ⟨h1, h2, h3⟩
    exact ⟨_, _, open_run_start_fail k env w d t ty params out ro hd ho hr hm h1 h2 h3, h3,
      by simp [frees_append, frees, openCall, resolveCall, startCall], rfl⟩
  · have hl : World.load
        { heap := (env.malloc_ret,
                   { handle := env.resolve_out.a, session := env.open_session }) :: w.heap,
          conns := env.open_session :: w.conns,
          trace := w.trace ++ [Call.TEE_Malloc env.malloc_ret, openCall k,
            resolveCall k env d ro, startCall k env t ty params ro],
          stores := w.stores ++ paramStore params env.resolve_out.a ++
            [Store.ree_session out env.malloc_ret],
          log := w.log } env.malloc_ret =
        some { handle := env.resolve_out.a, session := env.open_session } := by
      simp [World.load]
    obtain ⟨w₂, hc, hf, hh, hl2⟩ := hclose cenv _ _ _ hl
    refine ⟨_, w₂, open_run_ok k env w d t ty params out ro hd ho hr hm h1 h2 h3, rfl, hl,
      hc, hl2, hh, ?_⟩
    rw [hf]
    simp [frees_append, frees, openCall, resolveCall, startCall]

/-- The resolve command fails on an empty world: the record at `32` is
released once and the heap is empty again. -/
theorem session_record_release_witness :
    ((1000 ≠ 0 ∧ 2000 ≠ 0 ∧ 3000 ≠ 0) ∧ ({ envOk with resolve_res := 9 } : OpenEnv).malloc_ret ≠ 0) ∧
    ∃ res w', TEE_OpenREESession k0 { envOk with resolve_res := 9 } w0 1000 3 0x5555 none
        2000 3000 = some (res, w') ∧
      res ≠ TEE_SUCCESS ∧ frees w'.trace = frees w0.trace ++ [32] ∧ w'.heap = w0.heap :=
  ⟨by decide,
   (session_record_release k0 { envOk with resolve_res := 9 } w0 1000 3 0x5555 none 2000 3000
      (by decide) (by decide) (by decide) (by decide)).1 (by decide)⟩

end ReeService
